import Mathlib

/-!
Verification of the InjuryGuard streaming telemetry client.

The definitions below are a shallow embedding of the frontend client
(`App.jsx`, `AlertPanel.jsx`, `AROverlay.jsx`, `SessionSummary.jsx`):
JavaScript numbers are modelled as `ℚ`, timestamps as `ℤ` (milliseconds),
optional/falsy fields as `Option`, and the per-message WebSocket handler as
a pure state-transition function that also returns the list of
announcement-sink invocations (speech utterances and the alert tone) it
performs.
-/

namespace InjuryGuard

/-! ## Session channel (WebSocket lifecycle, `connectWS` / `sendFrame`) -/

/-- The readyState values of the underlying WebSocket. -/
inductive WSReady where
  | connecting
  | opened
  | closing
  | closed
deriving DecidableEq, Repr

/-- Client-side channel bookkeeping: the current socket (if any), the
reconnection-attempt counter `reconnectAttempts`, the `connected` flag and
the user-facing `streaming` flag. -/
structure Channel where
  ws : Option WSReady
  attempts : Nat
  connected : Bool
  streaming : Bool
deriving DecidableEq, Repr

/-- `connectWS`: returns early iff the current socket readyState is OPEN;
otherwise constructs a fresh WebSocket (readyState CONNECTING).  The second
component records whether a new connection was opened. -/
def connectWS (c : Channel) : Channel × Bool :=
  if c.ws = some WSReady.opened then (c, false)
  else ({ c with ws := some WSReady.connecting }, true)

/-- `ws.onopen`: mark connected and reset the reconnection-attempt counter. -/
def handleOpen (c : Channel) : Channel :=
  { c with ws := some WSReady.opened, connected := true, attempts := 0 }

/-- The backoff delay `Math.min(1000 * Math.pow(2, attempts), 10000)` from
the `ws.onclose` handler, in milliseconds. -/
def reconnectDelay (attempt : Nat) : Nat :=
  min (1000 * 2 ^ attempt) 10000

/-- `ws.onclose`: clear `connected`; if the user still intends to stream,
schedule a reconnection after `reconnectDelay attempts` (returned as
`some delay`), else schedule nothing. -/
def handleClose (c : Channel) : Channel × Option Nat :=
  if c.streaming then
    ({ c with connected := false }, some (reconnectDelay c.attempts))
  else
    ({ c with connected := false }, none)

/-- The scheduled reconnection callback: increment the attempt counter and
call `connectWS`. -/
def reconnectTimerFire (c : Channel) : Channel × Bool :=
  connectWS { c with attempts := c.attempts + 1 }

/-- An outbound frame message `{image_base64, sport, frame_width, frame_height}`. -/
structure OutboundFrame where
  image : String
  sport : String
  width : Int
  height : Int
deriving DecidableEq, Repr

/-- `sendFrame`: transmit the frame only when the socket readyState is OPEN;
`none` means no network effect at all. -/
def sendFrame (c : Channel) (m : OutboundFrame) : Option OutboundFrame :=
  if c.ws = some WSReady.opened then some m else none

/-- `handleSportChange`'s network part: send the `{sport}` control message
only when the socket readyState is OPEN. -/
def sendSportUpdate (c : Channel) (sport : String) : Option String :=
  if c.ws = some WSReady.opened then some sport else none

end InjuryGuard

namespace InjuryGuard

/-! ## Telemetry processor and notification dispatcher (`ws.onmessage`) -/

/-- One posture alert from the inbound message. -/
structure PostureAlert where
  joint : String
  side : String
  angle : ℚ
  severity : String
  message : String
deriving DecidableEq, Repr

/-- One inbound telemetry message (the fields of `data` that the handler
reads).  Absent/undefined JSON fields are `none`. -/
structure Reading where
  injury_probability : Option ℚ
  alert_level : Option String
  object_risk : Option ℚ
  object_speed : Option ℚ
  posture_alerts : List PostureAlert
  recommended_action : Option String
  injury_type : Option String
  alert_message : Option String
  message : Option String
deriving DecidableEq, Repr

/-- JavaScript `a || b` on an optional string: an absent or empty string
falls through to the default. -/
def strOr (o : Option String) (dflt : String) : String :=
  match o with
  | some s => if s = "" then dflt else s
  | none => dflt

/-- JavaScript `o > c` where `o` may be undefined (undefined compares false). -/
def optGt (o : Option ℚ) (c : ℚ) : Bool :=
  match o with
  | some v => decide (c < v)
  | none => false

/-- JavaScript truthiness test `data.alert_level && data.alert_level !== 'GREEN'`. -/
def isAlertLevel (d : Reading) : Bool :=
  match d.alert_level with
  | some lvl => decide (lvl ≠ "" ∧ lvl ≠ "GREEN")
  | none => false

/-- One point of the risk-history ring buffer. -/
structure RiskPoint where
  time : Int
  risk : ℚ
  level : String
deriving DecidableEq, Repr

/-- One record of the alert log: the reading spread together with the
generated `id` (`Date.now()`) and receipt timestamp. -/
structure AlertRec where
  data : Reading
  id : Int
  timestamp : Int
deriving DecidableEq, Repr

/-- The risk point appended for a reading:
`{time: now, risk: injury_probability || 0, level: alert_level || 'GREEN'}`. -/
def mkRiskPoint (now : Int) (d : Reading) : RiskPoint :=
  ⟨now, d.injury_probability.getD 0, d.alert_level.getD "GREEN"⟩

/-- The last `n` elements of a list, as JavaScript `slice(-n)`. -/
def takeLast (n : Nat) (l : List α) : List α :=
  l.drop (l.length - n)

/-- The risk-history update `[...prev, point].slice(-60)`. -/
def pushRisk (prev : List RiskPoint) (p : RiskPoint) : List RiskPoint :=
  takeLast 60 (prev ++ [p])

/-- The alert-log update `[record, ...prev].slice(0, 50)`. -/
def pushAlert (a : AlertRec) (prev : List AlertRec) : List AlertRec :=
  (a :: prev).take 50

/-- One announcement-sink invocation: a speech utterance, the alert tone,
or a cancellation of the in-flight utterance. -/
inductive Sink where
  | speech (text : String)
  | tone
  | cancel
deriving DecidableEq, Repr

/-- The mutable client state read and written by the message handler. -/
structure AppState where
  goodStreak : Nat
  lastCoachTime : Int
  lastPostureAlertTime : Int
  muted : Bool
  speaking : Bool
  riskHistory : List RiskPoint
  alerts : List AlertRec
  postureWarning : Option String
deriving DecidableEq, Repr

/-- The state at session start: zero counters, empty buffers. -/
def initState : AppState :=
  ⟨0, 0, 0, false, false, [], [], none⟩

/-- The `speak(text, priority)` helper: a no-op while muted; `high`
priority cancels the in-flight utterance and speaks; `normal` priority is
dropped if something is already speaking.  Returns the sink invocations
and the new `speechSynthesis.speaking` flag. -/
def speak (muted speaking : Bool) (text : String) (high : Bool) :
    List Sink × Bool :=
  if muted then ([], speaking)
  else if high then ([Sink.speech text], true)
  else if speaking then ([], speaking)
  else ([Sink.speech text], true)

/-- The fixed positive-reinforcement phrase set. -/
def compliments : List String :=
  ["Great form, keep it up!",
   "Balance looks perfect. You\x27re in the zone.",
   "Excellent control. This is how pros do it.",
   "Your posture is rock solid. Nice work.",
   "Stay focused, you\x27re doing amazing."]

/-- The fixed posture voice warning. -/
def postureVoiceMsg : String :=
  "I\x27m \x73orry, but your posture is wrong. Please take a moment to correct your form."

/-- Posture-alert block: if the reading carries posture alerts, set the
banner to the top alert and — at most once per 5000 ms, measured by
`lastPostureAlertTime` — speak the posture warning at high priority. -/
def postureStage (now : Int) (s : AppState) (d : Reading) :
    AppState × List Sink :=
  match d.posture_alerts with
  | [] => (s, [])
  | a :: _ =>
    if 5000 < now - s.lastPostureAlertTime then
      let r := speak s.muted s.speaking postureVoiceMsg true
      ({ s with postureWarning := some a.message,
                lastPostureAlertTime := now, speaking := r.2 }, r.1)
    else
      ({ s with postureWarning := some a.message }, [])

/-- Positive-reinforcement block: on a low-risk GREEN reading the good
streak grows; at 50 with the 15000 ms coaching cooldown (`lastCoachTime`)
elapsed, a compliment is spoken at normal priority, the streak resets to 0
and `lastCoachTime` is set to now.  A reading with risk above 40 resets
the streak. -/
def coachStage (compIdx : Nat) (now : Int) (s : AppState) (d : Reading) :
    AppState × List Sink :=
  let risk := d.injury_probability.getD 0
  if risk < 20 ∧ d.alert_level = some "GREEN" then
    let next := s.goodStreak + 1
    if 50 ≤ next ∧ 15000 < now - s.lastCoachTime then
      let r := speak s.muted s.speaking (compliments.getD (compIdx % 5) "") false
      ({ s with goodStreak := 0, lastCoachTime := now, speaking := r.2 }, r.1)
    else
      ({ s with goodStreak := next }, [])
  else if 40 < risk then
    ({ s with goodStreak := 0 }, [])
  else
    (s, [])

/-- Risk-history block: append the reading's point, keeping the last 60. -/
def historyStage (now : Int) (s : AppState) (d : Reading) : AppState :=
  { s with riskHistory := pushRisk s.riskHistory (mkRiskPoint now d) }

/-- Cricket hazard block: in cricket, with `object_risk > 80` and
`object_speed > 30` and more than 5000 ms since `lastCoachTime` (the very
same timestamp the coaching block uses), speak the hazard warning at high
priority and set `lastCoachTime` to now. -/
def hazardStage (sport : String) (now : Int) (s : AppState) (d : Reading) :
    AppState × List Sink :=
  if sport = "cricket" ∧ optGt d.object_risk 80 = true ∧ optGt d.object_speed 30 = true then
    if 5000 < now - s.lastCoachTime then
      let r := speak s.muted s.speaking "Save yourself! Sudden object detected!" true
      ({ s with lastCoachTime := now, speaking := r.2 }, r.1)
    else
      (s, [])
  else
    (s, [])

/-- Alert-log block: on a non-GREEN level prepend an alert record
(truncating to 50); on RED additionally play the alert tone (unless muted)
and, when no posture alerts are present, speak the recommended action or
injury type at high priority. -/
def alertStage (now : Int) (s : AppState) (d : Reading) :
    AppState × List Sink :=
  match d.alert_level with
  | none => (s, [])
  | some lvl =>
    if lvl = "" ∨ lvl = "GREEN" then (s, [])
    else
      let s1 := { s with alerts := pushAlert ⟨d, now, now⟩ s.alerts }
      if lvl = "RED" then
        let tone : List Sink := if s.muted then [] else [Sink.tone]
        if d.posture_alerts = [] then
          let r := speak s.muted s1.speaking
            (strOr d.recommended_action (strOr d.injury_type "High risk detected")) true
          ({ s1 with speaking := r.2 }, tone ++ r.1)
        else
          (s1, tone)
      else
        (s1, [])

/-- The whole `ws.onmessage` handler for one inbound reading, in source
order: posture block, reinforcement block, risk-history append, cricket
hazard block, alert-log block.  `compIdx` resolves the pseudo-random
compliment choice. -/
def processMessage (sport : String) (compIdx : Nat) (now : Int)
    (s : AppState) (d : Reading) : AppState × List Sink :=
  let r1 := postureStage now s d
  let r2 := coachStage compIdx now r1.1 d
  let s3 := historyStage now r2.1 d
  let r4 := hazardStage sport now s3 d
  let r5 := alertStage now r4.1 d
  (r5.1, r1.2 ++ r2.2 ++ r4.2 ++ r5.2)

/-- One inbound message together with its processing context. -/
structure Msg where
  sport : String
  compIdx : Nat
  now : Int
  reading : Reading
deriving DecidableEq, Repr

/-- Process a whole sequence of inbound messages in arrival order. -/
def processMsgs (s : AppState) (ms : List Msg) : AppState :=
  ms.foldl (fun st m => (processMessage m.sport m.compIdx m.now st m.reading).1) s

/-- The `handleMuteToggle` callback: flip the flag; when the new value is
muted, cancel any in-flight announcement. -/
def handleMuteToggle (muted : Bool) : Bool × List Sink :=
  let next := !muted
  (next, if next then [Sink.cancel] else [])

/-! ## Skeleton smoother (`AROverlay` landmark lerp) -/

/-- One MediaPipe landmark `[x, y, z, visibility]`. -/
structure Landmark where
  x : ℚ
  y : ℚ
  z : ℚ
  vis : ℚ
deriving DecidableEq, Repr

/-- `lerp(a, b, t) = a + (b - a) * t`. -/
def lerp (a b t : ℚ) : ℚ :=
  a + (b - a) * t

/-- The smoothing factor `LERP_FACTOR = 0.45`. -/
def LERP_FACTOR : ℚ := 0.45

/-- Per-landmark update: lerp the three position components toward the raw
value, take the raw visibility untouched. -/
def lerpLandmark (prev curr : Landmark) : Landmark :=
  ⟨lerp prev.x curr.x LERP_FACTOR,
   lerp prev.y curr.y LERP_FACTOR,
   lerp prev.z curr.z LERP_FACTOR,
   curr.vis⟩

/-- One frame of smoothing over the whole landmark list. -/
def lerpFrame (prev raw : List Landmark) : List Landmark :=
  List.zipWith lerpLandmark prev raw

/-- The `useMemo` smoothing body: absent or empty raw landmarks clear the
smoothed set; a missing previous set or a landmark-count change snaps to
the raw values; otherwise every landmark is lerped. -/
def smoothLandmarks (prev : Option (List Landmark)) (raw : Option (List Landmark)) :
    Option (List Landmark) :=
  match raw with
  | none => none
  | some r =>
    if r.length = 0 then none
    else
      match prev with
      | none => some r
      | some p => if p.length ≠ r.length then some r else some (lerpFrame p r)

/-- `k` frames of smoothing with the same raw landmark list. -/
def smoothIter : Nat → List Landmark → List Landmark → List Landmark
  | 0, p, _ => p
  | k + 1, p, r => smoothIter k (lerpFrame p r) r

/-- `k` applications of the per-landmark update toward a constant target. -/
def lerpIter : Nat → Landmark → Landmark → Landmark
  | 0, a, _ => a
  | k + 1, a, t => lerpIter k (lerpLandmark a t) t

/-! ## Session aggregator (`toggleStreaming` stop branch, `SessionSummary`) -/

/-- The rank step function of `SessionSummary`. -/
def rankOf (score : Int) : String :=
  if 95 ≤ score then "ELITE"
  else if 85 ≤ score then "PRO"
  else if 70 ≤ score then "SKILLED"
  else if 50 ≤ score then "AMATEUR"
  else "ROOKIE"

/-- Filter used for the dominant incident: alerts with RED level. -/
def redAlerts (alerts : List AlertRec) : List AlertRec :=
  alerts.filter fun a => decide (a.data.alert_level = some "RED")

/-- `mostDangerousAct`: the first RED alert's message or injury type when
one exists, else the first alert's message, else a fixed default. -/
def dominantIncident (alerts : List AlertRec) : String :=
  if alerts = [] then "None detected."
  else
    match redAlerts alerts with
    | r :: _ => strOr r.data.alert_message (strOr r.data.injury_type "High risk activity detected")
    | [] =>
      match alerts with
      | a :: _ => strOr a.data.alert_message (strOr a.data.message "Warning triggered")
      | [] => "None detected."

/-- The remediation suggestion paired with the dominant incident. -/
def suggestionFor (alerts : List AlertRec) : String :=
  if alerts = [] then "Maintain this level of safety."
  else if redAlerts alerts ≠ [] then
    "Focus on form correction and avoid sudden, jerky movements."
  else
    "Pay attention to minor form deviations before they escalate."

/-- The end-of-session report fields computed by `toggleStreaming`. -/
structure SessionStats where
  durationMin : Int
  durationSec : Int
  avgScore : Int
  peakRisk : Int
  alertCount : Nat
  suggestion : String
  mostDangerousAct : String
deriving DecidableEq, Repr

/-- The `toggleStreaming` stop branch: with a nonempty risk history,
compute the duration, the average safety score
`Math.max(0, 100 - avgRisk).toFixed(0)` (modelled as rounding to the
nearest integer), the rounded peak risk `Math.max(...risks, 0)`, the alert
count, and the dominant incident with its suggestion. -/
def sessionStats (now startTime : Int) (rh : List RiskPoint) (alerts : List AlertRec) :
    Option SessionStats :=
  if rh = [] then none
  else
    let durationSec : Int := (now - startTime) / 1000
    let avgRisk : ℚ := (rh.foldl (fun a b => a + b.risk) 0) / (rh.length : ℚ)
    let avgScore : Int := round (max 0 (100 - avgRisk))
    let peakRisk : Int := round ((rh.map RiskPoint.risk).foldl max 0)
    some ⟨durationSec / 60, durationSec % 60, avgScore, peakRisk, alerts.length,
          suggestionFor alerts, dominantIncident alerts⟩

/-! ## Alert panel rendering -/

/-- The alert list actually rendered: `alerts.slice(0, 20)`. -/
def renderedAlerts (alerts : List AlertRec) : List AlertRec :=
  alerts.take 20

/-- The panel badge: `Clear` on an empty list, otherwise the list length. -/
def badgeText (alerts : List AlertRec) : String :=
  if alerts.isEmpty then "Clear" else toString alerts.length

/-! ### Which state fields each handler block touches -/

theorem postureStage_goodStreak (now : Int) (s : AppState) (d : Reading) :
    (postureStage now s d).1.goodStreak = s.goodStreak := by
  simp only [postureStage]
  (repeat' split) <;> rfl

theorem postureStage_lastCoachTime (now : Int) (s : AppState) (d : Reading) :
    (postureStage now s d).1.lastCoachTime = s.lastCoachTime := by
  simp only [postureStage]
  (repeat' split) <;> rfl

theorem postureStage_muted (now : Int) (s : AppState) (d : Reading) :
    (postureStage now s d).1.muted = s.muted := by
  simp only [postureStage]
  (repeat' split) <;> rfl

theorem postureStage_riskHistory (now : Int) (s : AppState) (d : Reading) :
    (postureStage now s d).1.riskHistory = s.riskHistory := by
  simp only [postureStage]
  (repeat' split) <;> rfl

theorem postureStage_alerts (now : Int) (s : AppState) (d : Reading) :
    (postureStage now s d).1.alerts = s.alerts := by
  simp only [postureStage]
  (repeat' split) <;> rfl

theorem postureStage_sinks_of_muted (now : Int) (s : AppState) (d : Reading)
    (h : s.muted = true) : (postureStage now s d).2 = [] := by
  simp only [postureStage]
  (repeat' split) <;> simp [speak, h]

theorem coachStage_lastPostureAlertTime (i : Nat) (now : Int) (s : AppState) (d : Reading) :
    (coachStage i now s d).1.lastPostureAlertTime = s.lastPostureAlertTime := by
  simp only [coachStage]
  (repeat' split) <;> rfl

theorem coachStage_muted (i : Nat) (now : Int) (s : AppState) (d : Reading) :
    (coachStage i now s d).1.muted = s.muted := by
  simp only [coachStage]
  (repeat' split) <;> rfl

theorem coachStage_riskHistory (i : Nat) (now : Int) (s : AppState) (d : Reading) :
    (coachStage i now s d).1.riskHistory = s.riskHistory := by
  simp only [coachStage]
  (repeat' split) <;> rfl

theorem coachStage_alerts (i : Nat) (now : Int) (s : AppState) (d : Reading) :
    (coachStage i now s d).1.alerts = s.alerts := by
  simp only [coachStage]
  (repeat' split) <;> rfl

theorem coachStage_sinks_of_muted (i : Nat) (now : Int) (s : AppState) (d : Reading)
    (h : s.muted = true) : (coachStage i now s d).2 = [] := by
  simp only [coachStage]
  (repeat' split) <;> simp [speak, h]

/-- When the reinforcement conditions hold the streak is zeroed and the
shared coach timestamp is set to now, whether or not anything is spoken. -/
theorem coachStage_fires (i : Nat) (now : Int) (s : AppState) (d : Reading)
    (hrisk : d.injury_probability.getD 0 < 20)
    (hlvl : d.alert_level = some "GREEN")
    (hstreak : 50 ≤ s.goodStreak + 1)
    (hcool : 15000 < now - s.lastCoachTime) :
    (coachStage i now s d).1.goodStreak = 0 ∧
    (coachStage i now s d).1.lastCoachTime = now := by
  unfold coachStage
  rw [if_pos ⟨hrisk, hlvl⟩, if_pos ⟨hstreak, hcool⟩]
  exact ⟨rfl, rfl⟩

theorem historyStage_fields (now : Int) (s : AppState) (d : Reading) :
    (historyStage now s d).goodStreak = s.goodStreak ∧
    (historyStage now s d).lastCoachTime = s.lastCoachTime ∧
    (historyStage now s d).lastPostureAlertTime = s.lastPostureAlertTime ∧
    (historyStage now s d).muted = s.muted ∧
    (historyStage now s d).alerts = s.alerts ∧
    (historyStage now s d).speaking = s.speaking :=
  ⟨rfl, rfl, rfl, rfl, rfl, rfl⟩

theorem hazardStage_goodStreak (sport : String) (now : Int) (s : AppState) (d : Reading) :
    (hazardStage sport now s d).1.goodStreak = s.goodStreak := by
  simp only [hazardStage]
  (repeat' split) <;> rfl

theorem hazardStage_lastPostureAlertTime (sport : String) (now : Int) (s : AppState) (d : Reading) :
    (hazardStage sport now s d).1.lastPostureAlertTime = s.lastPostureAlertTime := by
  simp only [hazardStage]
  (repeat' split) <;> rfl

theorem hazardStage_muted (sport : String) (now : Int) (s : AppState) (d : Reading) :
    (hazardStage sport now s d).1.muted = s.muted := by
  simp only [hazardStage]
  (repeat' split) <;> rfl

theorem hazardStage_riskHistory (sport : String) (now : Int) (s : AppState) (d : Reading) :
    (hazardStage sport now s d).1.riskHistory = s.riskHistory := by
  simp only [hazardStage]
  (repeat' split) <;> rfl

theorem hazardStage_alerts (sport : String) (now : Int) (s : AppState) (d : Reading) :
    (hazardStage sport now s d).1.alerts = s.alerts := by
  simp only [hazardStage]
  (repeat' split) <;> rfl

/-- The hazard block either leaves the shared coach timestamp alone or
stamps it with now. -/
theorem hazardStage_lastCoachTime_cases (sport : String) (now : Int) (s : AppState) (d : Reading) :
    (hazardStage sport now s d).1.lastCoachTime = s.lastCoachTime ∨
    (hazardStage sport now s d).1.lastCoachTime = now := by
  unfold hazardStage
  repeat' split
  · right; rfl
  · left; rfl
  · left; rfl

theorem hazardStage_sinks_of_muted (sport : String) (now : Int) (s : AppState) (d : Reading)
    (h : s.muted = true) : (hazardStage sport now s d).2 = [] := by
  simp only [hazardStage]
  (repeat' split) <;> simp [speak, h]

theorem alertStage_goodStreak (now : Int) (s : AppState) (d : Reading) :
    (alertStage now s d).1.goodStreak = s.goodStreak := by
  simp only [alertStage]
  (repeat' split) <;> rfl

theorem alertStage_lastCoachTime (now : Int) (s : AppState) (d : Reading) :
    (alertStage now s d).1.lastCoachTime = s.lastCoachTime := by
  simp only [alertStage]
  (repeat' split) <;> rfl

theorem alertStage_lastPostureAlertTime (now : Int) (s : AppState) (d : Reading) :
    (alertStage now s d).1.lastPostureAlertTime = s.lastPostureAlertTime := by
  simp only [alertStage]
  (repeat' split) <;> rfl

theorem alertStage_riskHistory (now : Int) (s : AppState) (d : Reading) :
    (alertStage now s d).1.riskHistory = s.riskHistory := by
  simp only [alertStage]
  (repeat' split) <;> rfl

theorem alertStage_sinks_of_muted (now : Int) (s : AppState) (d : Reading)
    (h : s.muted = true) : (alertStage now s d).2 = [] := by
  simp only [alertStage]
  (repeat' split) <;> simp [speak, h]

/-- Under mute, processing a reading performs no sink invocation at all. -/
theorem processMessage_sinks_of_muted (sport : String) (i : Nat) (now : Int)
    (s : AppState) (d : Reading) (h : s.muted = true) :
    (processMessage sport i now s d).2 = [] := by
  have h1 : (postureStage now s d).1.muted = true := (postureStage_muted now s d).trans h
  have h2 : (coachStage i now (postureStage now s d).1 d).1.muted = true :=
    (coachStage_muted i now _ d).trans h1
  have h3 : (historyStage now (coachStage i now (postureStage now s d).1 d).1 d).muted = true := h2
  have h4 : (hazardStage sport now
      (historyStage now (coachStage i now (postureStage now s d).1 d).1 d) d).1.muted = true :=
    (hazardStage_muted sport now _ d).trans h3
  simp only [processMessage]
  rw [postureStage_sinks_of_muted now s d h,
    coachStage_sinks_of_muted i now _ d h1,
    hazardStage_sinks_of_muted sport now _ d h3,
    alertStage_sinks_of_muted now _ d h4]
  rfl

/-- C2: for attempts 0,1,2,3,4 the computed reconnect delays are
1000, 2000, 4000, 8000 and 10000 ms (capped at 10000); the `onclose`
handler schedules exactly `reconnectDelay attempts` while streaming; and
the `onopen` handler resets the attempt counter to 0 on every successful
open. -/
theorem reconnect_backoff_delays_and_reset :
    (reconnectDelay 0 = 1000 ∧ reconnectDelay 1 = 2000 ∧ reconnectDelay 2 = 4000 ∧
      reconnectDelay 3 = 8000 ∧ reconnectDelay 4 = 10000) ∧
    (∀ c : Channel, c.streaming = true →
      (handleClose c).2 = some (reconnectDelay c.attempts)) ∧
    (∀ c : Channel, (handleOpen c).attempts = 0) := by
  refine ⟨by decide, ?_, ?_⟩
  · intro c hc
    simp [handleClose, hc]
  · intro c
    rfl

/-- Witness for C2: a concrete streaming channel at attempt 3 schedules an
8000 ms delay, and opening resets its counter. -/
theorem reconnect_backoff_delays_and_reset_witness :
    (handleClose ⟨some WSReady.closed, 3, false, true⟩).2 = some 8000 ∧
    (handleOpen ⟨some WSReady.closed, 3, false, true⟩).attempts = 0 := by
  refine ⟨?_, reconnect_backoff_delays_and_reset.2.2 _⟩
  have h := reconnect_backoff_delays_and_reset.2.1 ⟨some WSReady.closed, 3, false, true⟩ rfl
  simpa [reconnectDelay] using h

/-- C4 counterexample: with the socket in CONNECTING state, `connectWS` is
not a no-op — it opens a brand-new connection (second component `true`),
because the guard in the source checks only for the OPEN readyState. -/
theorem connect_not_noop_when_connecting_cex :
    (connectWS ⟨some WSReady.connecting, 0, false, true⟩).2 = true := by
  decide

/-- C4 (amended): `connect()` is a no-op only when the socket readyState is
already OPEN; in any other state — including CONNECTING — it opens a new
connection, transitioning it to CONNECTING, and then to OPEN on a
successful open event. -/
theorem connect_noop_only_when_open :
    (∀ c : Channel, c.ws = some WSReady.opened → connectWS c = (c, false)) ∧
    (∀ c : Channel, c.ws ≠ some WSReady.opened →
      connectWS c = ({ c with ws := some WSReady.connecting }, true)) ∧
    (∀ c : Channel, (handleOpen c).ws = some WSReady.opened) := by
  refine ⟨?_, ?_, fun c => rfl⟩
  · intro c hc
    simp [connectWS, hc]
  · intro c hc
    simp [connectWS, hc]

/-- Witness for C4 (amended): concrete open and closed channels. -/
theorem connect_noop_only_when_open_witness :
    connectWS ⟨some WSReady.opened, 2, true, true⟩ = (⟨some WSReady.opened, 2, true, true⟩, false) ∧
    connectWS ⟨none, 0, false, false⟩ = (⟨some WSReady.connecting, 0, false, false⟩, true) := by
  exact ⟨connect_noop_only_when_open.1 _ rfl, connect_noop_only_when_open.2.1 _ (by decide)⟩

/-- C5: in every channel state other than OPEN, `sendFrame` and the sport
control-message send produce zero network effect (`none`) — the payload is
silently dropped, not queued, and no error is raised. -/
theorem send_noop_when_not_open (c : Channel) (m : OutboundFrame) (sp : String)
    (h : c.ws ≠ some WSReady.opened) :
    sendFrame c m = none ∧ sendSportUpdate c sp = none := by
  constructor
  · simp [sendFrame, h]
  · simp [sendSportUpdate, h]

/-- Witness for C5: a CONNECTING channel drops a concrete frame and a sport
update. -/
theorem send_noop_when_not_open_witness :
    sendFrame ⟨some WSReady.connecting, 0, false, true⟩ ⟨"img", "cricket", 640, 480⟩ = none ∧
    sendSportUpdate ⟨some WSReady.connecting, 0, false, true⟩ "cricket" = none :=
  send_noop_when_not_open _ _ _ (by decide)

/-! ### Bounded-buffer fold lemmas -/

theorem takeLast_of_length_le (n : Nat) (l : List α) (h : l.length ≤ n) :
    takeLast n l = l := by
  unfold takeLast
  rw [Nat.sub_eq_zero_of_le h, List.drop_zero]

theorem takeLast_length_le (n : Nat) (l : List α) : (takeLast n l).length ≤ n := by
  simp only [takeLast, List.length_drop]
  omega

theorem takeLast_idem_append (n : Nat) (A B : List α) :
    takeLast n (takeLast n A ++ B) = takeLast n (A ++ B) := by
  by_cases h : A.length ≤ n
  · rw [takeLast_of_length_le n A h]
  · push_neg at h
    unfold takeLast
    have e : A.drop (A.length - n) ++ B = (A ++ B).drop (A.length - n) :=
      (List.drop_append_of_le_length (by omega)).symm
    rw [e, List.length_drop, List.drop_drop]
    congr 1
    simp only [List.length_append]
    omega

theorem take_append_take (n : Nat) (X Y : List α) :
    List.take n (X ++ List.take n Y) = List.take n (X ++ Y) := by
  rw [List.take_append_eq_append_take, List.take_append_eq_append_take, List.take_take]
  congr 2
  omega

/-- Every block leaves the risk history alone except the history block,
which performs exactly the bounded append. -/
theorem processMessage_riskHistory (sport : String) (i : Nat) (now : Int)
    (s : AppState) (d : Reading) :
    (processMessage sport i now s d).1.riskHistory =
      pushRisk s.riskHistory (mkRiskPoint now d) := by
  simp only [processMessage]
  rw [alertStage_riskHistory, hazardStage_riskHistory]
  show pushRisk ((coachStage i now (postureStage now s d).1 d).1.riskHistory) _ = _
  rw [coachStage_riskHistory, postureStage_riskHistory]

/-- On a non-GREEN reading the alert block performs exactly the bounded
prepend. -/
theorem alertStage_alerts_pos (now : Int) (s : AppState) (d : Reading)
    (h : isAlertLevel d = true) :
    (alertStage now s d).1.alerts = pushAlert ⟨d, now, now⟩ s.alerts := by
  obtain ⟨ip, al, orisk, ospeed, pa, ra, it, am, msg⟩ := d
  cases al with
  | none => simp [isAlertLevel] at h
  | some lvl =>
    have hne : lvl ≠ "" ∧ lvl ≠ "GREEN" := by
      simpa [isAlertLevel] using h
    simp only [alertStage]
    rw [if_neg (by tauto)]
    (repeat' split) <;> rfl

theorem processMessage_alerts_pos (sport : String) (i : Nat) (now : Int)
    (s : AppState) (d : Reading) (h : isAlertLevel d = true) :
    (processMessage sport i now s d).1.alerts = pushAlert ⟨d, now, now⟩ s.alerts := by
  simp only [processMessage]
  rw [alertStage_alerts_pos _ _ _ h, hazardStage_alerts]
  show pushAlert _ ((coachStage i now (postureStage now s d).1 d).1.alerts) = _
  rw [coachStage_alerts, postureStage_alerts]

theorem processMsgs_riskHistory (ms : List Msg) :
    ∀ s : AppState, s.riskHistory.length ≤ 60 →
      (processMsgs s ms).riskHistory =
        takeLast 60 (s.riskHistory ++ ms.map fun m => mkRiskPoint m.now m.reading) := by
  induction ms with
  | nil =>
    intro s h
    show s.riskHistory = _
    rw [List.map_nil, List.append_nil, takeLast_of_length_le 60 _ h]
  | cons m ms ih =>
    intro s h
    have hstep := processMessage_riskHistory m.sport m.compIdx m.now s m.reading
    have hlen : ((processMessage m.sport m.compIdx m.now s m.reading).1).riskHistory.length ≤ 60 := by
      rw [hstep]
      exact takeLast_length_le 60 _
    show (processMsgs (processMessage m.sport m.compIdx m.now s m.reading).1 ms).riskHistory = _
    rw [ih _ hlen, hstep]
    show takeLast 60 (takeLast 60 (s.riskHistory ++ [mkRiskPoint m.now m.reading]) ++ _) = _
    rw [takeLast_idem_append, List.append_assoc]
    simp

theorem processMsgs_alerts (ms : List Msg) :
    ∀ s : AppState, s.alerts.length ≤ 50 →
      (∀ m ∈ ms, isAlertLevel m.reading = true) →
      (processMsgs s ms).alerts =
        List.take 50 ((ms.map fun m => AlertRec.mk m.reading m.now m.now).reverse ++ s.alerts) := by
  induction ms with
  | nil =>
    intro s h _
    show s.alerts = _
    rw [List.map_nil, List.reverse_nil, List.nil_append, List.take_of_length_le h]
  | cons m ms ih =>
    intro s h hng
    have hm : isAlertLevel m.reading = true := hng m (List.mem_cons_self m ms)
    have hstep := processMessage_alerts_pos m.sport m.compIdx m.now s m.reading hm
    have hlen : ((processMessage m.sport m.compIdx m.now s m.reading).1).alerts.length ≤ 50 := by
      rw [hstep]
      simp only [pushAlert, List.length_take]
      omega
    show (processMsgs (processMessage m.sport m.compIdx m.now s m.reading).1 ms).alerts = _
    rw [ih _ hlen (fun x hx => hng x (List.mem_cons_of_mem m hx)), hstep]
    show List.take 50 (_ ++ List.take 50 (⟨m.reading, m.now, m.now⟩ :: s.alerts)) = _
    rw [take_append_take]
    congr 1
    simp [List.append_assoc]

/-- C1: starting from the empty buffers of a fresh session, after any
sequence of inbound readings the risk history is exactly the suffix of the
chronological point sequence of length at most 60 (so for more than 60
readings, exactly the most recent 60, oldest-first); and when every
reading is non-GREEN, the alert log is exactly the first 50 of the
reversed (newest-first) record sequence (so for more than 50 such
readings, exactly the most recent 50, newest-first, the oldest evicted). -/
theorem bounded_risk_history_and_alert_log (ms : List Msg) (s0 : AppState)
    (h0 : s0.riskHistory = []) (h0a : s0.alerts = []) :
    ((processMsgs s0 ms).riskHistory =
        (ms.map fun m => mkRiskPoint m.now m.reading).drop (ms.length - 60) ∧
      (60 < ms.length → (processMsgs s0 ms).riskHistory.length = 60)) ∧
    ((∀ m ∈ ms, isAlertLevel m.reading = true) →
      (processMsgs s0 ms).alerts =
        ((ms.map fun m => AlertRec.mk m.reading m.now m.now).reverse).take 50 ∧
      (50 < ms.length → (processMsgs s0 ms).alerts.length = 50)) := by
  have hr := processMsgs_riskHistory ms s0 (by rw [h0]; simp)
  rw [h0, List.nil_append] at hr
  have hr2 : (processMsgs s0 ms).riskHistory =
      (ms.map fun m => mkRiskPoint m.now m.reading).drop (ms.length - 60) := by
    rw [hr]
    unfold takeLast
    rw [List.length_map]
  constructor
  · refine ⟨hr2, ?_⟩
    intro hlen
    rw [hr2, List.length_drop, List.length_map]
    omega
  · intro hng
    have ha := processMsgs_alerts ms s0 (by rw [h0a]; simp) hng
    rw [h0a, List.append_nil] at ha
    refine ⟨ha, ?_⟩
    intro hlen
    rw [ha, List.length_take, List.length_reverse, List.length_map]
    omega

/-- Witness for C1: two concrete RED readings fill both buffers in the
stated order. -/
theorem bounded_risk_history_and_alert_log_witness :
    (processMsgs initState
      [⟨"generic", 0, 100, ⟨some 50, some "RED", none, none, [], none, none, none, none⟩⟩,
       ⟨"generic", 0, 200, ⟨some 70, some "RED", none, none, [], none, none, none, none⟩⟩]).riskHistory
      = [⟨100, 50, "RED"⟩, ⟨200, 70, "RED"⟩] ∧
    (processMsgs initState
      [⟨"generic", 0, 100, ⟨some 50, some "RED", none, none, [], none, none, none, none⟩⟩,
       ⟨"generic", 0, 200, ⟨some 70, some "RED", none, none, [], none, none, none, none⟩⟩]).alerts
      = [⟨⟨some 70, some "RED", none, none, [], none, none, none, none⟩, 200, 200⟩,
         ⟨⟨some 50, some "RED", none, none, [], none, none, none, none⟩, 100, 100⟩] := by
  have h := bounded_risk_history_and_alert_log
    [⟨"generic", 0, 100, ⟨some 50, some "RED", none, none, [], none, none, none, none⟩⟩,
     ⟨"generic", 0, 200, ⟨some 70, some "RED", none, none, [], none, none, none, none⟩⟩]
    initState rfl rfl
  exact ⟨h.1.1.trans (by decide), ((h.2 (by decide)).1).trans (by decide)⟩

/-- C3 counterexample: the coaching and sport-hazard cooldowns are not
independent, because both live in `lastCoachTime`.  Concretely: from a
state with good streak 49 and no announcement ever made, a cricket reading
at t = 20000 with `object_risk` 90 and `object_speed` 40 fires the hazard
announcement and stamps the shared timestamp; a low-risk GREEN reading at
t = 26000 then brings the streak to 50, yet no reinforcement is announced
(sink list empty) even though no coaching announcement ever happened —
the hazard announcement consumed the coaching cooldown. -/
theorem shared_coach_hazard_cooldown_cex :
    ((processMessage "cricket" 0 20000 ⟨49, 0, 0, false, false, [], [], none⟩
        ⟨some 30, some "GREEN", some 90, some 40, [], none, none, none, none⟩).1.lastCoachTime
      = 20000 ∧
     (processMessage "cricket" 0 20000 ⟨49, 0, 0, false, false, [], [], none⟩
        ⟨some 30, some "GREEN", some 90, some 40, [], none, none, none, none⟩).2
      = [Sink.speech "Save yourself! Sudden object detected!"]) ∧
    ((processMessage "cricket" 0 26000
        (processMessage "cricket" 0 20000 ⟨49, 0, 0, false, false, [], [], none⟩
          ⟨some 30, some "GREEN", some 90, some 40, [], none, none, none, none⟩).1
        ⟨some 0, some "GREEN", none, none, [], none, none, none, none⟩).1.goodStreak = 50 ∧
     (processMessage "cricket" 0 26000
        (processMessage "cricket" 0 20000 ⟨49, 0, 0, false, false, [], [], none⟩
          ⟨some 30, some "GREEN", some 90, some 40, [], none, none, none, none⟩).1
        ⟨some 0, some "GREEN", none, none, [], none, none, none, none⟩).2 = []) := by
  decide

/-- C3 (amended): the dispatcher keeps two cooldown timestamps, not three
independent ones.  The posture-alert cooldown (5000 ms,
`lastPostureAlertTime`) is independent: no other block reads or writes it,
and the posture block never touches `lastCoachTime`.  The coaching
cooldown (15000 ms) and the sport-hazard cooldown (5000 ms) share the
single timestamp `lastCoachTime`: whichever of the two announces stamps
it, so each consumes/advances the other's cooldown. -/
theorem cooldown_timers_partial_independence :
    (∀ (now : Int) (s : AppState) (d : Reading),
      (postureStage now s d).1.lastCoachTime = s.lastCoachTime) ∧
    (∀ (i : Nat) (now : Int) (s : AppState) (d : Reading),
      (coachStage i now s d).1.lastPostureAlertTime = s.lastPostureAlertTime) ∧
    (∀ (sport : String) (now : Int) (s : AppState) (d : Reading),
      (hazardStage sport now s d).1.lastPostureAlertTime = s.lastPostureAlertTime) ∧
    (∀ (now : Int) (s : AppState) (d : Reading),
      (alertStage now s d).1.lastPostureAlertTime = s.lastPostureAlertTime ∧
      (alertStage now s d).1.lastCoachTime = s.lastCoachTime) ∧
    (∀ (now : Int) (s : AppState) (d : Reading),
      optGt d.object_risk 80 = true → optGt d.object_speed 30 = true →
      5000 < now - s.lastCoachTime →
      (hazardStage "cricket" now s d).1.lastCoachTime = now) ∧
    (∀ (i : Nat) (now : Int) (s : AppState) (d : Reading),
      d.injury_probability.getD 0 < 20 → d.alert_level = some "GREEN" →
      50 ≤ s.goodStreak + 1 → 15000 < now - s.lastCoachTime →
      (coachStage i now s d).1.lastCoachTime = now) := by
  refine ⟨postureStage_lastCoachTime, coachStage_lastPostureAlertTime,
    hazardStage_lastPostureAlertTime,
    fun now s d => ⟨alertStage_lastPostureAlertTime now s d, alertStage_lastCoachTime now s d⟩,
    ?_, ?_⟩
  · intro now s d h1 h2 h3
    unfold hazardStage
    rw [if_pos ⟨rfl, h1, h2⟩, if_pos h3]
  · intro i now s d h1 h2 h3 h4
    exact (coachStage_fires i now s d h1 h2 h3 h4).2

/-- Witness for C3 (amended): a concrete hazard reading stamps the shared
coach timestamp; a concrete reinforcement reading does the same. -/
theorem cooldown_timers_partial_independence_witness :
    (hazardStage "cricket" 9000 ⟨0, 0, 0, false, false, [], [], none⟩
      ⟨none, none, some 95, some 45, [], none, none, none, none⟩).1.lastCoachTime = 9000 ∧
    (coachStage 2 99000 ⟨49, 0, 0, false, false, [], [], none⟩
      ⟨some 5, some "GREEN", none, none, [], none, none, none, none⟩).1.lastCoachTime = 99000 :=
  ⟨cooldown_timers_partial_independence.2.2.2.2.1 9000 _ _ (by decide) (by decide) (by decide),
   cooldown_timers_partial_independence.2.2.2.2.2 2 99000 _ _ (by decide) rfl (by decide) (by decide)⟩

/-- C8: toggling mute twice restores the identical suppression state;
while the mute flag is engaged, processing any reading performs zero
announcement-sink invocations (no speech, no alert tone), regardless of
what the reading contains; and newly engaging mute cancels the in-flight
announcement. -/
theorem mute_idempotent_and_suppressing :
    (∀ m : Bool, (handleMuteToggle (handleMuteToggle m).1).1 = m) ∧
    (∀ (sport : String) (i : Nat) (now : Int) (s : AppState) (d : Reading),
      s.muted = true → (processMessage sport i now s d).2 = []) ∧
    handleMuteToggle false = (true, [Sink.cancel]) := by
  refine ⟨?_, ?_, rfl⟩
  · intro m
    cases m <;> rfl
  · intro sport i now s d h
    exact processMessage_sinks_of_muted sport i now s d h

/-- Witness for C8: a muted client processes a RED reading with a posture
alert, a hazard and a reinforcement opportunity, and still emits nothing. -/
theorem mute_idempotent_and_suppressing_witness :
    (processMessage "cricket" 1 50000
      ⟨49, 0, 0, true, false, [], [], none⟩
      ⟨some 90, some "RED", some 95, some 45,
        [⟨"knee", "left", 170, "danger", "Knee overextended"⟩],
        some "Slow down", some "ACL strain", some "High knee stress", none⟩).2 = [] :=
  mute_idempotent_and_suppressing.2.1 "cricket" 1 50000 _ _ rfl

/-! ### Skeleton-smoother lemmas -/

theorem zipWith_left_of_length_eq {α β : Type} :
    ∀ (p : List α) (r : List β), p.length = r.length →
      List.zipWith (fun a _ => a) p r = p
  | [], [], _ => rfl
  | [], _ :: _, h => by simp at h
  | _ :: _, [], h => by simp at h
  | a :: p, b :: r, h => by
    simp only [List.zipWith_cons_cons, List.cons.injEq, true_and]
    exact zipWith_left_of_length_eq p r (by simpa using h)

theorem zipWith_zipWith_same {α β γ δ : Type} (f : γ → β → δ) (g : α → β → γ) :
    ∀ (p : List α) (r : List β),
      List.zipWith f (List.zipWith g p r) r = List.zipWith (fun a t => f (g a t) t) p r
  | [], _ => by simp
  | _ :: _, [] => by simp
  | a :: p, t :: r => by
    simp only [List.zipWith_cons_cons, List.cons.injEq, true_and]
    exact zipWith_zipWith_same f g p r

theorem smoothIter_zipWith :
    ∀ (k : Nat) (p r : List Landmark), p.length = r.length →
      smoothIter k p r = List.zipWith (fun a t => lerpIter k a t) p r
  | 0, p, r, h => (zipWith_left_of_length_eq p r h).symm
  | k + 1, p, r, h => by
    show smoothIter k (lerpFrame p r) r = _
    rw [smoothIter_zipWith k (lerpFrame p r) r (by simp [lerpFrame, h]),
      lerpFrame, zipWith_zipWith_same]
    rfl

theorem lerpIter_sub :
    ∀ (k : Nat) (a t : Landmark),
      (lerpIter k a t).x - t.x = (a.x - t.x) * (0.55 : ℚ) ^ k ∧
      (lerpIter k a t).y - t.y = (a.y - t.y) * (0.55 : ℚ) ^ k ∧
      (lerpIter k a t).z - t.z = (a.z - t.z) * (0.55 : ℚ) ^ k
  | 0, a, t => by simp [lerpIter]
  | k + 1, a, t => by
    have ih := lerpIter_sub k (lerpLandmark a t) t
    refine ⟨?_, ?_, ?_⟩
    · show (lerpIter k (lerpLandmark a t) t).x - t.x = _
      rw [ih.1]
      simp only [lerpLandmark, lerp, LERP_FACTOR]
      rw [pow_succ]
      ring
    · show (lerpIter k (lerpLandmark a t) t).y - t.y = _
      rw [ih.2.1]
      simp only [lerpLandmark, lerp, LERP_FACTOR]
      rw [pow_succ]
      ring
    · show (lerpIter k (lerpLandmark a t) t).z - t.z = _
      rw [ih.2.2]
      simp only [lerpLandmark, lerp, LERP_FACTOR]
      rw [pow_succ]
      ring

theorem lerpIter_vis : ∀ (k : Nat) (a t : Landmark), (lerpIter (k + 1) a t).vis = t.vis
  | 0, _, _ => rfl
  | k + 1, a, t => lerpIter_vis k (lerpLandmark a t) t

/-- C6: with no previous smoothed set, or a changed landmark count, the
smoother snaps to the raw values; with matching counts it lerps every
landmark with factor 0.45; the visibility component always equals the
latest raw value and is never interpolated; and for a landmark held at a
constant raw target, the position error after `k` further frames is
exactly `0.55 ^ k` times the initial error, decreasing monotonically. -/
theorem smoothing_convergence :
    (∀ r : List Landmark, r ≠ [] → smoothLandmarks none (some r) = some r) ∧
    (∀ p r : List Landmark, r ≠ [] → p.length ≠ r.length →
      smoothLandmarks (some p) (some r) = some r) ∧
    (∀ p r : List Landmark, r ≠ [] → p.length = r.length →
      smoothLandmarks (some p) (some r) = some (lerpFrame p r)) ∧
    (∀ a t : Landmark, (lerpLandmark a t).vis = t.vis) ∧
    (∀ (k : Nat) (a t : Landmark), (lerpIter (k + 1) a t).vis = t.vis) ∧
    (∀ (k : Nat) (p r : List Landmark), p.length = r.length →
      smoothIter k p r = List.zipWith (fun a t => lerpIter k a t) p r) ∧
    (∀ (k : Nat) (a t : Landmark),
      |(lerpIter k a t).x - t.x| = |a.x - t.x| * (0.55 : ℚ) ^ k ∧
      |(lerpIter k a t).y - t.y| = |a.y - t.y| * (0.55 : ℚ) ^ k ∧
      |(lerpIter k a t).z - t.z| = |a.z - t.z| * (0.55 : ℚ) ^ k) ∧
    (∀ (k : Nat) (a t : Landmark),
      |(lerpIter (k + 1) a t).x - t.x| ≤ |(lerpIter k a t).x - t.x|) := by
  have habs : ∀ (k : Nat) (a t : Landmark),
      |(lerpIter k a t).x - t.x| = |a.x - t.x| * (0.55 : ℚ) ^ k ∧
      |(lerpIter k a t).y - t.y| = |a.y - t.y| * (0.55 : ℚ) ^ k ∧
      |(lerpIter k a t).z - t.z| = |a.z - t.z| * (0.55 : ℚ) ^ k := by
    intro k a t
    have h := lerpIter_sub k a t
    have hp : |(0.55 : ℚ) ^ k| = (0.55 : ℚ) ^ k :=
      abs_of_nonneg (pow_nonneg (by norm_num) k)
    exact ⟨by rw [h.1, abs_mul, hp], by rw [h.2.1, abs_mul, hp], by rw [h.2.2, abs_mul, hp]⟩
  refine ⟨?_, ?_, ?_, fun a t => rfl, lerpIter_vis, smoothIter_zipWith, habs, ?_⟩
  · intro r hr
    simp [smoothLandmarks, List.length_eq_zero, hr]
  · intro p r hr hlen
    simp [smoothLandmarks, List.length_eq_zero, hr, hlen]
  · intro p r hr hlen
    simp [smoothLandmarks, List.length_eq_zero, hr, hlen]
  · intro k a t
    rw [(habs (k + 1) a t).1, (habs k a t).1]
    exact mul_le_mul_of_nonneg_left
      (pow_le_pow_of_le_one (by norm_num) (by norm_num) (Nat.le_succ k)) (abs_nonneg _)

/-- Witness for C6: concrete snaps and a two-frame error computation. -/
theorem smoothing_convergence_witness :
    smoothLandmarks none (some [⟨1, 2, 3, 1⟩]) = some [⟨1, 2, 3, 1⟩] ∧
    smoothLandmarks (some [⟨0, 0, 0, 0⟩, ⟨1, 1, 1, 1⟩]) (some [⟨1, 2, 3, 1⟩]) = some [⟨1, 2, 3, 1⟩] ∧
    smoothLandmarks (some [⟨0, 0, 0, 0⟩]) (some [⟨1, 2, 3, 1⟩])
      = some (lerpFrame [⟨0, 0, 0, 0⟩] [⟨1, 2, 3, 1⟩]) ∧
    |(lerpIter 2 ⟨1, 0, 0, 0⟩ ⟨0, 0, 0, 1⟩).x - (⟨0, 0, 0, 1⟩ : Landmark).x|
      = |(⟨1, 0, 0, 0⟩ : Landmark).x - (⟨0, 0, 0, 1⟩ : Landmark).x| * (0.55 : ℚ) ^ 2 :=
  ⟨smoothing_convergence.1 _ (by decide),
   smoothing_convergence.2.1 _ _ (by decide) (by decide),
   smoothing_convergence.2.2.1 _ _ (by decide) (by decide),
   (smoothing_convergence.2.2.2.2.2.2.1 2 _ _).1⟩

/-- C9: when the good streak reaches 50 with the coaching cooldown elapsed
while muted, the streak is still reset to 0 and `lastCoachTime` is still
stamped with the current time, yet no announcement-sink invocation occurs:
a muted reinforcement silently consumes the streak and the cooldown. -/
theorem muted_reinforcement_consumes_streak
    (sport : String) (i : Nat) (now : Int) (s : AppState) (d : Reading)
    (hm : s.muted = true)
    (hrisk : d.injury_probability.getD 0 < 20)
    (hlvl : d.alert_level = some "GREEN")
    (hstreak : 50 ≤ s.goodStreak + 1)
    (hcool : 15000 < now - s.lastCoachTime) :
    (processMessage sport i now s d).1.goodStreak = 0 ∧
    (processMessage sport i now s d).1.lastCoachTime = now ∧
    (processMessage sport i now s d).2 = [] := by
  have hp1 : (postureStage now s d).1.goodStreak = s.goodStreak := postureStage_goodStreak now s d
  have hp2 : (postureStage now s d).1.lastCoachTime = s.lastCoachTime :=
    postureStage_lastCoachTime now s d
  have hcoach := coachStage_fires i now (postureStage now s d).1 d hrisk hlvl
    (by rw [hp1]; exact hstreak) (by rw [hp2]; exact hcool)
  refine ⟨?_, ?_, processMessage_sinks_of_muted sport i now s d hm⟩
  · simp only [processMessage]
    rw [alertStage_goodStreak, hazardStage_goodStreak]
    show (coachStage i now (postureStage now s d).1 d).1.goodStreak = 0
    exact hcoach.1
  · simp only [processMessage]
    rw [alertStage_lastCoachTime]
    rcases hazardStage_lastCoachTime_cases sport now
        (historyStage now (coachStage i now (postureStage now s d).1 d).1 d) d with hc | hc
    · rw [hc]
      show (coachStage i now (postureStage now s d).1 d).1.lastCoachTime = now
      exact hcoach.2
    · exact hc

/-- Witness for C9: a concrete muted state at streak 49 with an eligible
GREEN reading. -/
theorem muted_reinforcement_consumes_streak_witness :
    (processMessage "generic" 0 20000
      ⟨49, 0, 0, true, false, [], [], none⟩
      ⟨some 5, some "GREEN", none, none, [], none, none, none, none⟩).1.goodStreak = 0 ∧
    (processMessage "generic" 0 20000
      ⟨49, 0, 0, true, false, [], [], none⟩
      ⟨some 5, some "GREEN", none, none, [], none, none, none, none⟩).1.lastCoachTime = 20000 ∧
    (processMessage "generic" 0 20000
      ⟨49, 0, 0, true, false, [], [], none⟩
      ⟨some 5, some "GREEN", none, none, [], none, none, none, none⟩).2 = [] :=
  muted_reinforcement_consumes_streak "generic" 0 20000 _ _ rfl (by decide) rfl (by decide) (by decide)

/-! ### Session-aggregator lemmas -/

theorem foldl_max_is_ub :
    ∀ (l : List ℚ) (a : ℚ), (∀ x ∈ l, x ≤ l.foldl max a) ∧ a ≤ l.foldl max a
  | [], a => ⟨by simp, le_refl a⟩
  | x :: l, a => by
    have ih := foldl_max_is_ub l (max a x)
    constructor
    · intro y hy
      rcases List.mem_cons.mp hy with rfl | hy
      · exact le_trans (le_max_right a y) ih.2
      · exact ih.1 y hy
    · exact le_trans (le_max_left a x) ih.2

theorem foldl_max_eq_or_mem :
    ∀ (l : List ℚ) (a : ℚ), l.foldl max a = a ∨ l.foldl max a ∈ l
  | [], a => Or.inl rfl
  | x :: l, a => by
    rcases foldl_max_eq_or_mem l (max a x) with h | h
    · rcases max_choice a x with hm | hm
      · left
        show l.foldl max (max a x) = a
        rw [h, hm]
      · right
        show l.foldl max (max a x) ∈ x :: l
        rw [h, hm]
        exact List.mem_cons_self x l
    · exact Or.inr (List.mem_cons_of_mem x h)

/-- `Math.max(...xs, 0)` over a nonempty list of nonnegative values is a
member of the list and an upper bound of it. -/
theorem foldl_max_spec (l : List ℚ) (hne : l ≠ []) (hpos : ∀ x ∈ l, 0 ≤ x) :
    l.foldl max 0 ∈ l ∧ ∀ x ∈ l, x ≤ l.foldl max 0 := by
  have hub := (foldl_max_is_ub l 0).1
  refine ⟨?_, hub⟩
  rcases foldl_max_eq_or_mem l 0 with h | h
  · obtain ⟨x, hx⟩ := List.exists_mem_of_ne_nil l hne
    have h1 : x ≤ 0 := h ▸ hub x hx
    have h2 : x = 0 := le_antisymm h1 (hpos x hx)
    rw [h, ← h2]
    exact hx
  · exact h

/-- C7 counterexample: a single risk point of 10.5 makes the reported
average score 90 and the reported peak risk 11, while the claimed exact
values `clamp(100 − mean, 0, 100)` and `max(risk)` are 89.5 and 10.5: the
report rounds both to the nearest integer. -/
theorem session_summary_rounding_cex :
    (sessionStats 1000 0 [⟨0, 21 / 2, "GREEN"⟩] []).map SessionStats.avgScore = some 90 ∧
    ((90 : ℚ) ≠ min 100 (max 0 (100 - 21 / 2))) ∧
    (sessionStats 1000 0 [⟨0, 21 / 2, "GREEN"⟩] []).map SessionStats.peakRisk = some 11 ∧
    ((11 : ℚ) ≠ 21 / 2) := by
  have hs : sessionStats 1000 0 [⟨0, 21 / 2, "GREEN"⟩] [] =
      some ⟨0, 1, 90, 11, 0, suggestionFor [], dominantIncident []⟩ := by
    simp only [sessionStats,
      if_neg (by decide : ¬([⟨0, (21 : ℚ) / 2, "GREEN"⟩] : List RiskPoint) = [])]
    norm_num [round_eq, max_def]
  refine ⟨by rw [hs]; rfl, by norm_num, by rw [hs]; rfl, by norm_num⟩

/-- C7 (amended): on session stop with a nonempty risk history of
nonnegative risks, the summary reports
`averageScore = round (clamp (100 − mean risk) 0 100)` and
`peakRisk = round (max risk)` (both rounded to the nearest integer by
`toFixed(0)`), `alertCount` equal to the alert-log length, the dominant
incident preferring the first RED alert's message/injury type, else the
first alert's message, else a `none detected` value; and the rank is the
step function of the reported average score with tiers at 95, 85, 70
and 50. -/
theorem session_summary_amended (now st : Int) (rh : List RiskPoint) (alerts : List AlertRec)
    (hne : rh ≠ []) (hpos : ∀ p ∈ rh, 0 ≤ p.risk) :
    (∃ stats, sessionStats now st rh alerts = some stats ∧
      stats.avgScore =
        round (min 100 (max 0 (100 - (rh.map RiskPoint.risk).sum / (rh.length : ℚ)))) ∧
      (∃ M, M ∈ rh.map RiskPoint.risk ∧ (∀ x ∈ rh.map RiskPoint.risk, x ≤ M) ∧
        stats.peakRisk = round M) ∧
      stats.alertCount = alerts.length ∧
      stats.mostDangerousAct = dominantIncident alerts ∧
      stats.suggestion = suggestionFor alerts) ∧
    (∀ sc : Int,
      (95 ≤ sc → rankOf sc = "ELITE") ∧
      (85 ≤ sc ∧ sc < 95 → rankOf sc = "PRO") ∧
      (70 ≤ sc ∧ sc < 85 → rankOf sc = "SKILLED") ∧
      (50 ≤ sc ∧ sc < 70 → rankOf sc = "AMATEUR") ∧
      (sc < 50 → rankOf sc = "ROOKIE")) ∧
    (∀ al : List AlertRec,
      (al = [] → dominantIncident al = "None detected.") ∧
      (∀ r rest, redAlerts al = r :: rest →
        dominantIncident al =
          strOr r.data.alert_message (strOr r.data.injury_type "High risk activity detected")) ∧
      (∀ a rest, al = a :: rest → redAlerts al = [] →
        dominantIncident al =
          strOr a.data.alert_message (strOr a.data.message "Warning triggered"))) := by
  refine ⟨?_, ?_, ?_⟩
  · have hsum : rh.foldl (fun a b => a + b.risk) 0 = (rh.map RiskPoint.risk).sum := by
      rw [List.sum_eq_foldl, List.foldl_map]
    have hmean : (0 : ℚ) ≤ (rh.map RiskPoint.risk).sum / (rh.length : ℚ) := by
      apply div_nonneg
      · apply List.sum_nonneg
        intro x hx
        obtain ⟨p, hp, rfl⟩ := List.mem_map.mp hx
        exact hpos p hp
      · exact_mod_cast Nat.zero_le rh.length
    have hclamp : max 0 (100 - (rh.map RiskPoint.risk).sum / (rh.length : ℚ)) =
        min 100 (max 0 (100 - (rh.map RiskPoint.risk).sum / (rh.length : ℚ))) := by
      rw [min_eq_right]
      apply max_le (by norm_num)
      linarith
    have hmap_ne : rh.map RiskPoint.risk ≠ [] := by
      simpa [List.map_eq_nil_iff] using hne
    have hmap_pos : ∀ x ∈ rh.map RiskPoint.risk, 0 ≤ x := by
      intro x hx
      obtain ⟨p, hp, rfl⟩ := List.mem_map.mp hx
      exact hpos p hp
    have hspec := foldl_max_spec (rh.map RiskPoint.risk) hmap_ne hmap_pos
    refine ⟨⟨(now - st) / 1000 / 60, (now - st) / 1000 % 60,
      round (max 0 (100 - (rh.foldl (fun a b => a + b.risk) 0) / (rh.length : ℚ))),
      round ((rh.map RiskPoint.risk).foldl max 0), alerts.length,
      suggestionFor alerts, dominantIncident alerts⟩,
      ?_, ?_, ⟨(rh.map RiskPoint.risk).foldl max 0, hspec.1, hspec.2, rfl⟩, rfl, rfl, rfl⟩
    · simp only [sessionStats, if_neg hne]
    · show round (max 0 (100 - (rh.foldl (fun a b => a + b.risk) 0) / (rh.length : ℚ))) = _
      rw [hsum]
      exact congrArg round hclamp
  · intro sc
    refine ⟨?_, ?_, ?_, ?_, ?_⟩
    · intro h
      unfold rankOf
      rw [if_pos h]
    · intro h
      unfold rankOf
      rw [if_neg (by omega), if_pos h.1]
    · intro h
      unfold rankOf
      rw [if_neg (by omega), if_neg (by omega), if_pos h.1]
    · intro h
      unfold rankOf
      rw [if_neg (by omega), if_neg (by omega), if_neg (by omega), if_pos h.1]
    · intro h
      unfold rankOf
      rw [if_neg (by omega), if_neg (by omega), if_neg (by omega), if_neg (by omega)]
  · intro al
    refine ⟨?_, ?_, ?_⟩
    · intro h
      rw [h]
      rfl
    · intro r rest hred
      have hal : al ≠ [] := by
        intro h
        rw [h] at hred
        simp [redAlerts] at hred
      simp only [dominantIncident, if_neg hal, hred]
    · intro a rest hal hred
      subst hal
      simp only [dominantIncident, hred]
      simp

/-- Witness for C7 (amended): a one-point history with risk 10 yields a
defined summary, and a reported score of 90 ranks PRO. -/
theorem session_summary_amended_witness :
    (sessionStats 125000 0 [⟨0, 10, "GREEN"⟩] []).isSome = true ∧ rankOf 90 = "PRO" := by
  obtain ⟨⟨stats, hstats, _⟩, hrank, _⟩ :=
    session_summary_amended 125000 0 [⟨0, 10, "GREEN"⟩] [] (by decide)
      (by
        intro p hp
        simp only [List.mem_singleton] at hp
        subst hp
        norm_num)
  constructor
  · rw [hstats]
    rfl
  · exact (hrank 90).2.1 ⟨by decide, by decide⟩

/-- C10 counterexample: for the empty alert list the panel badge reads
`Clear`, not the list length `0`, so the badge does not display the full
list length for every list. -/
theorem alert_badge_empty_cex :
    badgeText [] = "Clear" ∧ toString (List.length ([] : List AlertRec)) = "0" ∧
    ("Clear" : String) ≠ toString (List.length ([] : List AlertRec)) := by
  exact ⟨rfl, rfl, by decide⟩

/-- C10 (amended): the panel renders exactly the first 20 entries of the
alert list it is given (at most 20, a prefix of the list), while the
underlying alert log retains up to 50 records; for every nonempty alert
list the badge displays the full list length (the empty list shows a
`Clear` badge instead). -/
theorem alert_panel_renders_first20 (alerts : List AlertRec) :
    (renderedAlerts alerts).length ≤ 20 ∧
    renderedAlerts alerts ++ alerts.drop 20 = alerts ∧
    (∀ (a : AlertRec) (prev : List AlertRec), (pushAlert a prev).length ≤ 50) ∧
    (alerts ≠ [] → badgeText alerts = toString alerts.length) := by
  refine ⟨?_, List.take_append_drop 20 alerts, ?_, ?_⟩
  · simp only [renderedAlerts, List.length_take]
    omega
  · intro a prev
    simp only [pushAlert, List.length_take]
    omega
  · intro h
    cases alerts with
    | nil => exact absurd rfl h
    | cons a rest => rfl

/-- Witness for C10 (amended): a one-element list shows its length. -/
theorem alert_panel_renders_first20_witness :
    badgeText [⟨⟨none, none, none, none, [], none, none, none, none⟩, 1, 1⟩] =
      toString (List.length [(⟨⟨none, none, none, none, [], none, none, none, none⟩, 1, 1⟩ : AlertRec)]) :=
  (alert_panel_renders_first20 _).2.2.2 (by decide)

end InjuryGuard
